import Mathlib

/-!
Verification of the Dubhacks25 dance-trainer frontend.

This file gives a shallow embedding of the logic slices of the repository:
the beat clock driven by video playback time, the practice-session countdown
state machine of `EnhancedPracticePage` (src/unnamed/part_003), the snapshot
feedback handler, the `LiveFeedback` message list (src/unnamed/part_001),
the `DanceAPI.request` HTTP wrapper (frontend/src/services/danceAPI.ts) and
the `useDanceSession` hook (frontend/src/hooks/useDanceSession.ts).
JavaScript numbers are modelled as exact rationals (the sources only use
small integers and simple rational arithmetic, far from any rounding).
Definitions come first, then the theorems about them.
-/

/- ## BeatClock (useVideoBeatSync) -/

/-- The beat-clock output: current beat index and sub-beat progress
fraction (spec section 3, `BeatState`). -/
structure BeatState where
  currentBeat : ℤ
  beatProgress : ℚ
deriving DecidableEq

/-- Modelled from the spec: the implementation of the `useVideoBeatSync`
hook (`frontend/src/hooks/useVideoBeatSync.ts`) is not among the reviewed
sources; only its call site in `EnhancedPracticePage` is.  Spec section 3:
`elapsedBeats = elapsedTime_seconds × bpm / 60`. -/
def elapsedBeats (elapsedTime bpm : ℚ) : ℚ :=
  elapsedTime * bpm / 60

/-- Modelled from the spec: the BeatClock of `useVideoBeatSync`.
Spec sections 3 and 4.1: `currentBeat = floor(elapsedBeats)`, clamped so it
never exceeds `totalBeats − 1`; `beatProgress` is the fractional remainder
`elapsedBeats − floor(elapsedBeats)`. -/
def beatClock (elapsedTime bpm : ℚ) (totalBeats : ℤ) : BeatState :=
  { currentBeat := min ⌊elapsedBeats elapsedTime bpm⌋ (totalBeats - 1)
    beatProgress := elapsedBeats elapsedTime bpm - ⌊elapsedBeats elapsedTime bpm⌋ }

/- ## SessionStateMachine (EnhancedPracticePage, src/unnamed/part_003) -/

/-- The session-relevant React state of `EnhancedPracticePage`:
`countdown` (part_003 line 37), `hasStarted` (line 36), `isPlaying`
(line 29) and whether `startAutoCapture` has been invoked (line 132). -/
structure PracticeState where
  countdown : Option ℕ
  hasStarted : Bool
  isPlaying : Bool
  autoCapture : Bool
deriving DecidableEq

/-- The initial (Idle) state of `EnhancedPracticePage`. -/
def idleState : PracticeState :=
  { countdown := none, hasStarted := false, isPlaying := false, autoCapture := false }

/-- `handleStart` (part_003 lines 120-122): `setCountdown(3)`. -/
def handleStart (s : PracticeState) : PracticeState :=
  { s with countdown := some 3 }

/-- One firing of the countdown effect (part_003 lines 124-142): when
`countdown` is `0` the 500 ms timeout clears it, sets `hasStarted`,
starts playback and calls `startAutoCapture`; when `countdown` is `n+1`
the one-second timer decrements it; when `countdown` is `null` nothing
happens. -/
def countdownTick (s : PracticeState) : PracticeState :=
  match s.countdown with
  | none => s
  | some 0 =>
      { s with countdown := none, hasStarted := true, isPlaying := true, autoCapture := true }
  | some (n + 1) => { s with countdown := some n }

/-- The Running state reached after the countdown completes. -/
def runningState : PracticeState :=
  { countdown := none, hasStarted := true, isPlaying := true, autoCapture := true }

/-- The Start overlay renders only while `!hasStarted && countdown === null`
(part_003 line 166), so this is the guard under which `handleStart` can be
invoked at all. -/
def startButtonVisible (s : PracticeState) : Bool :=
  !s.hasStarted && s.countdown == none

/-- A user press of Start: `handleStart` runs only when the Start overlay is
mounted (part_003 lines 166-185). -/
def clickStart (s : PracticeState) : PracticeState :=
  if startButtonVisible s then handleStart s else s

/- ## ComparisonResult and the snapshot feedback handler
(part_003 lines 83-106, danceAPI.ts lines 16-26) -/

/-- `comparison_result` of a snapshot response (danceAPI.ts lines 16-22). -/
structure ComparisonResult where
  pose_score : ℚ
  motion_score : ℚ
  combined_score : ℚ
  best_match_idx : ℤ
  timing_offset : ℚ
deriving DecidableEq

/-- The parts of a snapshot feedback response that `handleSnapshot` reads
(part_003 lines 94-100): the comparison result and the live feedback text. -/
structure FeedbackResponse where
  comparison_result : Option ComparisonResult
  live_feedback : Option String
deriving DecidableEq

/-- JavaScript `Math.round`: round to the nearest integer, halves toward
positive infinity, i.e. `⌊q + 1/2⌋`. -/
def jsRound (q : ℚ) : ℤ :=
  ⌊q + 1 / 2⌋

/-- The feedback-relevant React state of `EnhancedPracticePage`:
`hasStarted` (line 36), `isCapturing` (from `useSnapshotCapture`, line 68),
`currentFeedback` (line 38), `overallAccuracy` (line 39), plus the identity
of the snapshot request currently being awaited, if any. -/
structure SessionFeedbackState where
  hasStarted : Bool
  isCapturing : Bool
  currentFeedback : Option FeedbackResponse
  overallAccuracy : ℤ
  pending : Option ℕ
deriving DecidableEq

/-- The success path of `handleSnapshot` (part_003 lines 94-100):
`setCurrentFeedback(feedback)`, and if `feedback.comparison_result` is
present, `setOverallAccuracy(Math.round(combined_score * 100))`. -/
def applyFeedback (s : SessionFeedbackState) (fb : FeedbackResponse) : SessionFeedbackState :=
  let s1 := { s with currentFeedback := some fb }
  match fb.comparison_result with
  | some cr => { s1 with overallAccuracy := jsRound (cr.combined_score * 100) }
  | none => s1

/-- The outcome of the awaited `processSnapshot` promise: a feedback
response, or a rejection (e.g. the backend answered HTTP 500). -/
inductive SnapshotOutcome where
  | ok (fb : FeedbackResponse)
  | err (e : String)
deriving DecidableEq

/-- `handleSnapshot` (part_003 lines 83-106) given the outcome `r` of the
awaited call: the early return when `!hasStarted`, the success path, and
the `catch` branch that only logs (`console.error`).  The Boolean result
records whether the error-logging path ran. -/
def handleSnapshot (s : SessionFeedbackState) (r : SnapshotOutcome) :
    SessionFeedbackState × Bool :=
  if !s.hasStarted then (s, false)
  else
    match r with
    | .ok fb => (applyFeedback s fb, false)
    | .err _ => (s, true)

/-- Whether the auto-snapshot ticking is active: the `autoSnapshot` prop of
`LiveCameraView` is `hasStarted && isCapturing` (part_003 line 314). -/
def snapshotTicksEnabled (s : SessionFeedbackState) : Bool :=
  s.hasStarted && s.isCapturing

/- ## Asynchronous snapshot lifecycle (for the stale-result question) -/

/-- Events of the snapshot round-trip as the handler sees them:
`issue id` is the pre-await part of `handleSnapshot` (the `!hasStarted`
early return at part_003 line 84 followed by starting the awaited call);
`disable` is `stopAutoCapture` turning `isCapturing` off; `resolve id fb`
is the post-await continuation (part_003 lines 94-100), which applies the
response unconditionally — the source has no freshness re-check after the
`await`. -/
inductive SessionEvent where
  | issue (id : ℕ)
  | disable
  | resolve (id : ℕ) (fb : FeedbackResponse)
deriving DecidableEq

/-- One event of the snapshot lifecycle, translated from
part_003 lines 83-106 plus the `stopAutoCapture` interface of
`useSnapshotCapture` (lines 63-80). -/
def sessionStep (s : SessionFeedbackState) : SessionEvent → SessionFeedbackState
  | .issue id => if s.hasStarted then { s with pending := some id } else s
  | .disable => { s with isCapturing := false }
  | .resolve id fb =>
      if s.pending = some id then { applyFeedback s fb with pending := none } else s

/-- A running session with auto-capture on (after the countdown of
part_003 lines 124-142 completed; initial accuracy 82 from line 39). -/
def demoRunningFeedback : SessionFeedbackState :=
  { hasStarted := true, isCapturing := true, currentFeedback := none
    overallAccuracy := 82, pending := none }

/-- A concrete feedback response with combined score 1/2. -/
def fbDemo : FeedbackResponse :=
  { comparison_result := some
      { pose_score := 1/2, motion_score := 1/2, combined_score := 1/2
        best_match_idx := 0, timing_offset := 0 }
    live_feedback := some ("Keep your arms higher") }

/- ## LiveFeedback message list (src/unnamed/part_001) -/

/-- The category of a `LiveFeedback` message
(part_001 line 13: 'success' | 'warning' | 'tip'). -/
inductive LFType where
  | success
  | warning
  | tip
deriving DecidableEq

/-- One entry of `feedbackMessages` (part_001 line 13). -/
structure LFMsg where
  id : ℕ
  message : String
  type : LFType
deriving DecidableEq

/-- The id given to the `k`-th interval message: `messageId` starts at 0 and
`newId = messageId + 1` before each append (part_001 lines 14, 29). -/
def lfMessageId (k : ℕ) : ℕ :=
  k + 1

/-- The two state mutations of `LiveFeedback`:
appending a new message (part_001 line 32,
`setFeedbackMessages(prev => [...prev, { id: newId, ...randomMessage }])`)
and the 3-second removal timeout (line 36,
`prev.filter(msg => msg.id !== newId)`). -/
def lfAppend (msgs : List LFMsg) (m : LFMsg) : List LFMsg :=
  msgs ++ [m]

/-- Removal of the message with the given id (part_001 line 36). -/
def lfRemoveId (msgs : List LFMsg) (i : ℕ) : List LFMsg :=
  msgs.filter (fun m => m.id != i)

/-- The `LiveFeedback` timer events: `tick k` is the `k`-th firing of the
4000 ms interval (part_001 line 19, at time `4000·(k+1)` ms); `expire k`
is the 3000 ms removal timeout scheduled by that firing (line 35, at time
`4000·(k+1) + 3000` ms). -/
inductive LFEvent where
  | tick (k : ℕ)
  | expire (k : ℕ)
deriving DecidableEq

/-- The real time (ms after playback start) at which each event fires. -/
def lfEventTime : LFEvent → ℕ
  | .tick k => 4000 * (k + 1)
  | .expire k => 4000 * (k + 1) + 3000

/-- One event applied to the message list.  `choice k` is the text and
category the `k`-th firing picked from the `messages` array
(part_001 lines 21-28; the random pick is kept abstract). -/
def lfStep (choice : ℕ → String × LFType) (msgs : List LFMsg) : LFEvent → List LFMsg
  | .tick k => lfAppend msgs ⟨lfMessageId k, (choice k).1, (choice k).2⟩
  | .expire k => lfRemoveId msgs (lfMessageId k)

/-- The first `n` interval cycles in the order the event loop runs them:
`4000·(k+1) + 3000 < 4000·(k+2)`, so each message's removal timeout fires
before the next interval tick. -/
def lfTrace : ℕ → List LFEvent
  | 0 => []
  | n + 1 => lfTrace n ++ [.tick n, .expire n]

/-- The message list after processing the first `j` events of `n` cycles. -/
def lfRunPrefix (choice : ℕ → String × LFType) (n j : ℕ) : List LFMsg :=
  ((lfTrace n).take j).foldl (lfStep choice) []

/-- A fixed pick for concrete counterexample states
(one of the four entries of the `messages` array, part_001 line 25). -/
def lfChoiceDemo : ℕ → String × LFType :=
  fun _ => ("Sync with the beat", LFType.warning)

/- ## DanceAPI (frontend/src/services/danceAPI.ts) -/

/-- An HTTP response as `DanceAPI.request` consumes it: a status code and
the parsed JSON body (of the endpoint's response type). -/
structure HTTPResponse (α : Type) where
  status : ℕ
  body : α

/-- `response.ok` of the fetch API: status in the inclusive range 200-299. -/
def responseOk {α : Type} (r : HTTPResponse α) : Bool :=
  200 ≤ r.status && r.status ≤ 299

/-- `DanceAPI.request` (danceAPI.ts lines 59-77): if `!response.ok`, throw
`Error("HTTP error! status: " + status)`; otherwise return the parsed body. -/
def danceRequest {α : Type} (r : HTTPResponse α) : Except String α :=
  if responseOk r then .ok r.body
  else .error ("HTTP error! status: " ++ toString r.status)

/-- Response body of `startSession` and `endSession`
(danceAPI.ts lines 28-31). -/
structure StartSessionResponse where
  session_id : String
  message : String
deriving DecidableEq

/-- Response body of `loadReferenceVideo` (danceAPI.ts line 98). -/
structure LoadReferenceResponse where
  video_name : String
  message : String
deriving DecidableEq

/-- Response body of `testConnection` (danceAPI.ts line 120). -/
structure HealthResponse where
  status : String
  message : String
deriving DecidableEq

/-- Response body of `processSnapshot` (danceAPI.ts lines 7-26). -/
structure ProcessSnapshotResponse where
  timestamp : ℚ
  pose_landmarks : Option (List (List ℚ))
  hand_landmarks : List (List (List ℚ))
  hand_classifications : List (String × ℚ)
  preprocessed_angles : List (String × ℚ)
  comparison_result : Option ComparisonResult
  live_feedback : Option String
  success : Bool
deriving DecidableEq

/-- `DanceAPI.processSnapshot` (danceAPI.ts lines 79-84): delegates to
`request`. -/
def processSnapshotCall (r : HTTPResponse ProcessSnapshotResponse) :
    Except String ProcessSnapshotResponse :=
  danceRequest r

/-- `DanceAPI.startSession` (danceAPI.ts lines 86-90): delegates to
`request`. -/
def startSessionCall (r : HTTPResponse StartSessionResponse) :
    Except String StartSessionResponse :=
  danceRequest r

/-- `DanceAPI.endSession` (danceAPI.ts lines 92-96): delegates to
`request`. -/
def endSessionCall (r : HTTPResponse StartSessionResponse) :
    Except String StartSessionResponse :=
  danceRequest r

/-- `DanceAPI.loadReferenceVideo` (danceAPI.ts lines 98-103): delegates to
`request`. -/
def loadReferenceVideoCall (r : HTTPResponse LoadReferenceResponse) :
    Except String LoadReferenceResponse :=
  danceRequest r

/-- `DanceAPI.testConnection` (danceAPI.ts lines 120-122): delegates to
`request`. -/
def testConnectionCall (r : HTTPResponse HealthResponse) :
    Except String HealthResponse :=
  danceRequest r

/- ## useDanceSession (frontend/src/hooks/useDanceSession.ts) -/

/-- The state of the `useDanceSession` hook: `sessionId` (line 5) and
`isSessionActive` (line 6). -/
structure DanceSessionState where
  sessionId : Option String
  isSessionActive : Bool
deriving DecidableEq

/-- `startDanceSession` (useDanceSession.ts lines 8-19) given the outcome of
`danceAPI.startSession()`: on success set `sessionId` to the returned
`session_id` and `isSessionActive` to true and return the response; on
failure leave the state unchanged and re-throw. -/
def startDanceSession (s : DanceSessionState)
    (r : Except String StartSessionResponse) :
    DanceSessionState × Except String StartSessionResponse :=
  match r with
  | .ok resp => ({ sessionId := some resp.session_id, isSessionActive := true }, .ok resp)
  | .error e => (s, .error e)

/-- `endDanceSession` (useDanceSession.ts lines 21-32) given the outcome of
`danceAPI.endSession()`: on success set `sessionId` to null and
`isSessionActive` to false and return the response; on failure leave the
state unchanged and re-throw. -/
def endDanceSession (s : DanceSessionState)
    (r : Except String StartSessionResponse) :
    DanceSessionState × Except String StartSessionResponse :=
  match r with
  | .ok resp => ({ sessionId := none, isSessionActive := false }, .ok resp)
  | .error e => (s, .error e)

/- # Theorems -/

/-- C1: for every elapsedTime ≥ 0, bpm > 0 and totalBeats > 0, the BeatClock
returns a `BeatState` whose `currentBeat` lies in `[0, totalBeats − 1]` and
whose `beatProgress` lies in `[0, 1)`; in particular `currentBeat` is clamped
so it never exceeds `totalBeats − 1` even when `elapsedTime` runs past the
track duration. -/
theorem beatClock_bounds (t bpm : ℚ) (tb : ℤ)
    (ht : 0 ≤ t) (hb : 0 < bpm) (htb : 0 < tb) :
    0 ≤ (beatClock t bpm tb).currentBeat ∧
    (beatClock t bpm tb).currentBeat ≤ tb - 1 ∧
    0 ≤ (beatClock t bpm tb).beatProgress ∧
    (beatClock t bpm tb).beatProgress < 1 := by
  have heb : 0 ≤ elapsedBeats t bpm := by
    unfold elapsedBeats
    positivity
  refine ⟨?_, ?_, ?_, ?_⟩
  · show 0 ≤ min ⌊elapsedBeats t bpm⌋ (tb - 1)
    exact le_min (Int.le_floor.mpr (by exact_mod_cast heb)) (by omega)
  · show min ⌊elapsedBeats t bpm⌋ (tb - 1) ≤ tb - 1
    exact min_le_right _ _
  · simp [beatClock]
  · have h := Int.fract_lt_one (elapsedBeats t bpm)
    simpa [beatClock, Int.self_sub_floor] using h

/-- Witness for C1 at elapsedTime = 8 s, bpm = 120, totalBeats = 32. -/
theorem beatClock_bounds_witness :
    (0:ℚ) ≤ 8 ∧ (0:ℚ) < 120 ∧ (0:ℤ) < 32 ∧
    (0 ≤ (beatClock 8 120 32).currentBeat ∧
     (beatClock 8 120 32).currentBeat ≤ 32 - 1 ∧
     0 ≤ (beatClock 8 120 32).beatProgress ∧
     (beatClock 8 120 32).beatProgress < 1) :=
  ⟨by norm_num, by norm_num, by norm_num,
   beatClock_bounds 8 120 32 (by norm_num) (by norm_num) (by norm_num)⟩

/-- C2: the BeatClock computes by the reference definition
`elapsedBeats = t × bpm / 60`, `currentBeat = floor(elapsedBeats)`,
`beatProgress = elapsedBeats − currentBeat` (whenever the floor does not
overrun the clamp), and concretely for bpm = 120, totalBeats = 32,
elapsedTime = 8 s it returns currentBeat = 16 and beatProgress = 0. -/
theorem beatClock_reference_def (t bpm : ℚ) (tb : ℤ)
    (h : ⌊elapsedBeats t bpm⌋ ≤ tb - 1) :
    beatClock t bpm tb =
      { currentBeat := ⌊elapsedBeats t bpm⌋
        beatProgress := elapsedBeats t bpm - ⌊elapsedBeats t bpm⌋ } ∧
    beatClock 8 120 32 = { currentBeat := 16, beatProgress := 0 } := by
  constructor
  · simp [beatClock, min_eq_left h]
  · have h16 : elapsedBeats 8 120 = 16 := by norm_num [elapsedBeats]
    have hf : ⌊(16:ℚ)⌋ = 16 := by norm_num
    simp [beatClock, h16, hf]

/-- Witness for C2 at elapsedTime = 8 s, bpm = 120, totalBeats = 32. -/
theorem beatClock_reference_def_witness :
    ⌊elapsedBeats 8 120⌋ ≤ (32:ℤ) - 1 ∧
    (beatClock 8 120 32 =
      { currentBeat := ⌊elapsedBeats 8 120⌋
        beatProgress := elapsedBeats 8 120 - ⌊elapsedBeats 8 120⌋ } ∧
     beatClock 8 120 32 = { currentBeat := 16, beatProgress := 0 }) := by
  have h16 : elapsedBeats 8 120 = 16 := by norm_num [elapsedBeats]
  have hyp : ⌊elapsedBeats 8 120⌋ ≤ (32:ℤ) - 1 := by rw [h16]; norm_num
  exact ⟨hyp, beatClock_reference_def 8 120 32 hyp⟩

/-- C3: `start()` from Idle moves to Countdown(3); each one-second tick
decrements the countdown by one until it reaches 0; the tick at 0 (after the
500 ms delay) clears the countdown, starts playback and starts auto-capture;
so four effect firings after `start()` put the machine in Running. -/
theorem session_start_countdown_running :
    (handleStart idleState).countdown = some 3 ∧
    (∀ s n, s.countdown = some (n + 1) → countdownTick s = { s with countdown := some n }) ∧
    (∀ s, s.countdown = some 0 →
      countdownTick s =
        { s with countdown := none, hasStarted := true, isPlaying := true, autoCapture := true }) ∧
    countdownTick^[4] (handleStart idleState) = runningState := by
  refine ⟨rfl, ?_, ?_, by decide⟩
  · intro s n h
    simp [countdownTick, h]
  · intro s h
    simp [countdownTick, h]

/-- Witness for C3: the decrement and completion steps evaluated on the
concrete states of the run started from Idle. -/
theorem session_start_countdown_running_witness :
    (handleStart idleState).countdown = some 3 ∧
    countdownTick (handleStart idleState) =
      { handleStart idleState with countdown := some 2 } ∧
    countdownTick { idleState with countdown := some 0 } =
      { idleState with
        countdown := none
        hasStarted := true
        isPlaying := true
        autoCapture := true } ∧
    countdownTick^[4] (handleStart idleState) = runningState := by
  obtain ⟨h1, h2, h3, h4⟩ := session_start_countdown_running
  exact ⟨h1, h2 (handleStart idleState) 2 rfl, h3 { idleState with countdown := some 0 } rfl, h4⟩

/-- C4: `start()` is idempotent: `handleStart` applied twice is the same as
applying it once (so two calls in quick succession give a single
Countdown(3) sequence), and in every state reachable after a first start —
all of Countdown(3..0) and Running — a further `clickStart` is a no-op
because the Start overlay is unmounted while `hasStarted || countdown ≠ null`. -/
theorem start_idempotent :
    (∀ s, handleStart (handleStart s) = handleStart s) ∧
    clickStart (clickStart idleState) = clickStart idleState ∧
    (∀ k, clickStart (countdownTick^[k] (clickStart idleState)) =
      countdownTick^[k] (clickStart idleState)) := by
  refine ⟨fun s => rfl, by decide, ?_⟩
  have hfix : ∀ k, countdownTick^[k] (clickStart idleState) =
      if k = 0 then { idleState with countdown := some 3 }
      else if k = 1 then { idleState with countdown := some 2 }
      else if k = 2 then { idleState with countdown := some 1 }
      else if k = 3 then { idleState with countdown := some 0 }
      else runningState := by
    intro k
    induction k with
    | zero => decide
    | succ k ih =>
        rw [Function.iterate_succ_apply', ih]
        rcases k with _ | _ | _ | _ | k <;> simp <;> decide
  intro k
  rw [hfix k]
  rcases k with _ | _ | _ | _ | k <;> simp <;> decide

/-- C5: ingesting a snapshot result whose `combined_score` lies in `[0,1]`
sets `overallAccuracy` to `round(combined_score × 100)` — a direct
replacement independent of the previous state, never a moving average —
and the result is an integer in `[0,100]`. -/
theorem ingest_accuracy (s : SessionFeedbackState) (fb : FeedbackResponse)
    (cr : ComparisonResult) (hfb : fb.comparison_result = some cr)
    (h0 : 0 ≤ cr.combined_score) (h1 : cr.combined_score ≤ 1) :
    (applyFeedback s fb).overallAccuracy = jsRound (cr.combined_score * 100) ∧
    (∀ s' : SessionFeedbackState,
      (applyFeedback s' fb).overallAccuracy = (applyFeedback s fb).overallAccuracy) ∧
    0 ≤ (applyFeedback s fb).overallAccuracy ∧
    (applyFeedback s fb).overallAccuracy ≤ 100 := by
  have hval : ∀ s' : SessionFeedbackState,
      (applyFeedback s' fb).overallAccuracy = jsRound (cr.combined_score * 100) := by
    intro s'
    simp [applyFeedback, hfb]
  have hlow : 0 ≤ jsRound (cr.combined_score * 100) := by
    unfold jsRound
    apply Int.le_floor.mpr
    push_cast
    nlinarith
  have hup : jsRound (cr.combined_score * 100) ≤ 100 := by
    unfold jsRound
    have h2 : ⌊cr.combined_score * 100 + 1 / 2⌋ < 101 := by
      apply Int.floor_lt.mpr
      push_cast
      nlinarith
    omega
  exact ⟨hval s, fun s' => (hval s').trans (hval s).symm, (hval s) ▸ hlow, (hval s) ▸ hup⟩

/-- Witness for C5: `fbDemo` (combined score 1/2) ingested into the running
demo state yields accuracy 50 ∈ [0,100]. -/
theorem ingest_accuracy_witness :
    fbDemo.comparison_result = some
      { pose_score := 1/2, motion_score := 1/2, combined_score := 1/2
        best_match_idx := 0, timing_offset := 0 } ∧
    (0:ℚ) ≤ 1/2 ∧ (1:ℚ)/2 ≤ 1 ∧
    ((applyFeedback demoRunningFeedback fbDemo).overallAccuracy =
      jsRound ((1:ℚ)/2 * 100) ∧
     (∀ s' : SessionFeedbackState,
       (applyFeedback s' fbDemo).overallAccuracy =
         (applyFeedback demoRunningFeedback fbDemo).overallAccuracy) ∧
     0 ≤ (applyFeedback demoRunningFeedback fbDemo).overallAccuracy ∧
     (applyFeedback demoRunningFeedback fbDemo).overallAccuracy ≤ 100) :=
  ⟨rfl, by norm_num, by norm_num,
   ingest_accuracy demoRunningFeedback fbDemo _ rfl (by norm_num) (by norm_num)⟩

/-- C6: when the snapshot submission fails (the awaited `processSnapshot`
rejects, e.g. because the backend answered HTTP 500 — `DanceAPI.request`
turns status 500 into a thrown error), `handleSnapshot` leaves the feedback
state unchanged (`currentFeedback` and `overallAccuracy` untouched), the
failure goes to the logging path, and the auto-snapshot ticking is still
enabled afterwards, so the session continues. -/
theorem snapshot_failure_keeps_state (s : SessionFeedbackState) (e : String)
    (h : s.hasStarted = true) :
    handleSnapshot s (.err e) = (s, true) ∧
    (handleSnapshot s (.err e)).1.currentFeedback = s.currentFeedback ∧
    (handleSnapshot s (.err e)).1.overallAccuracy = s.overallAccuracy ∧
    snapshotTicksEnabled (handleSnapshot s (.err e)).1 = snapshotTicksEnabled s ∧
    (∀ b : ProcessSnapshotResponse,
      processSnapshotCall { status := 500, body := b } =
        .error ("HTTP error! status: " ++ toString 500)) := by
  have h1 : handleSnapshot s (.err e) = (s, true) := by
    simp [handleSnapshot, h]
  refine ⟨h1, by rw [h1], by rw [h1], by rw [h1], fun b => rfl⟩

/-- Witness for C6: the error path evaluated on the running demo state. -/
theorem snapshot_failure_keeps_state_witness :
    demoRunningFeedback.hasStarted = true ∧
    handleSnapshot demoRunningFeedback (.err ("HTTP error! status: 500")) =
      (demoRunningFeedback, true) :=
  ⟨rfl,
   (snapshot_failure_keeps_state demoRunningFeedback ("HTTP error! status: 500") rfl).1⟩

/-- C7 counterexample: issue a snapshot request from the running state,
disable the scheduler, then let the response arrive.  The response is still
applied: `currentFeedback` changes and `overallAccuracy` is overwritten
(82 → 50) even though the request was issued before the disable — the
handler has no freshness re-check after the `await`. -/
theorem stale_result_applied_after_disable :
    (sessionStep (sessionStep demoRunningFeedback (.issue 1)) .disable).isCapturing = false ∧
    (sessionStep (sessionStep (sessionStep demoRunningFeedback (.issue 1)) .disable)
        (.resolve 1 fbDemo)).currentFeedback = some fbDemo ∧
    (sessionStep (sessionStep (sessionStep demoRunningFeedback (.issue 1)) .disable)
        (.resolve 1 fbDemo)).currentFeedback ≠
      (sessionStep (sessionStep demoRunningFeedback (.issue 1)) .disable).currentFeedback ∧
    (sessionStep (sessionStep (sessionStep demoRunningFeedback (.issue 1)) .disable)
        (.resolve 1 fbDemo)).overallAccuracy = 50 := by
  have hf : jsRound ((2:ℚ)⁻¹ * 100) = 50 := by
    unfold jsRound
    norm_num
  refine ⟨rfl, ?_, ?_, ?_⟩ <;>
    simp [sessionStep, demoRunningFeedback, applyFeedback, fbDemo, hf]

/-- C7 amended: the response continuation applies its result whenever it
matches the request in flight, with no re-validation whatsoever — in
particular even when the scheduler has been disabled in the meantime (the
`hasStarted` guard runs only before the `await`, part_003 line 84; lines
94-100 run unconditionally afterwards), so a stale result is ingested, not
discarded. -/
theorem resolve_ignores_disable (s : SessionFeedbackState) (id : ℕ)
    (fb : FeedbackResponse) (hp : s.pending = some id)
    (hd : s.isCapturing = false) :
    sessionStep s (.resolve id fb) = { applyFeedback s fb with pending := none } ∧
    (sessionStep s (.resolve id fb)).currentFeedback = some fb := by
  have h1 : sessionStep s (.resolve id fb) =
      { applyFeedback s fb with pending := none } := by
    simp [sessionStep, hp]
  refine ⟨h1, ?_⟩
  rw [h1]
  cases hc : fb.comparison_result <;> simp [applyFeedback, hc]

/-- Witness for the amended C7 at the post-disable state of the
counterexample trace. -/
theorem resolve_ignores_disable_witness :
    (sessionStep (sessionStep demoRunningFeedback (.issue 1)) .disable).pending = some 1 ∧
    (sessionStep (sessionStep demoRunningFeedback (.issue 1)) .disable).isCapturing = false ∧
    (sessionStep (sessionStep (sessionStep demoRunningFeedback (.issue 1)) .disable)
        (.resolve 1 fbDemo)).currentFeedback = some fbDemo :=
  ⟨rfl, rfl,
   (resolve_ignores_disable
      (sessionStep (sessionStep demoRunningFeedback (.issue 1)) .disable) 1 fbDemo
      rfl rfl).2⟩

/-- The trace of `LiveFeedback` events has length `2n` after `n` cycles. -/
theorem lfTrace_length (n : ℕ) : (lfTrace n).length = 2 * n := by
  induction n with
  | zero => rfl
  | succ n ih =>
      simp [lfTrace, ih]
      omega

/-- Every event of the first `n` cycles fires strictly before the
`(n+1)`-st interval tick. -/
theorem lfEventTime_lt (n : ℕ) : ∀ e ∈ lfTrace n, lfEventTime e < 4000 * (n + 1) := by
  induction n with
  | zero =>
      intro e he
      simp [lfTrace] at he
  | succ n ih =>
      intro e he
      simp only [lfTrace, List.mem_append, List.mem_cons, List.not_mem_nil, or_false] at he
      rcases he with he | he | he
      · exact lt_trans (ih e he) (by omega)
      · subst he
        simp only [lfEventTime]
        omega
      · subst he
        simp only [lfEventTime]
        omega

/-- The firing times along `lfTrace` are strictly increasing, i.e. the
trace lists the timer events in the order the event loop delivers them:
each message's 3000 ms removal timeout fires before the next 4000 ms
interval tick. -/
theorem lfTrace_times_sorted (n : ℕ) :
    ((lfTrace n).map lfEventTime).Pairwise (· < ·) := by
  induction n with
  | zero => simp [lfTrace]
  | succ n ih =>
      rw [lfTrace, List.map_append, List.pairwise_append]
      have ht : lfEventTime (LFEvent.tick n) = 4000 * (n + 1) := rfl
      have hx : lfEventTime (LFEvent.expire n) = 4000 * (n + 1) + 3000 := rfl
      refine ⟨ih, ?_, ?_⟩
      · simp only [List.map_cons, List.map_nil]
        refine List.Pairwise.cons ?_ (List.Pairwise.cons ?_ List.Pairwise.nil)
        · intro y hy
          simp only [List.mem_cons, List.not_mem_nil, or_false] at hy
          subst hy
          omega
        · intro y hy
          simp only [List.not_mem_nil] at hy
      · intro a ha y hy
        simp only [List.mem_map] at ha
        obtain ⟨e, he, rfl⟩ := ha
        have hlt := lfEventTime_lt n e he
        simp only [List.map_cons, List.map_nil, List.mem_cons, List.not_mem_nil, or_false] at hy
        rcases hy with rfl | rfl <;> omega

/-- Processing a full cycle returns the message list to empty: the message
appended by tick `k` is removed by its own expiry before the next tick. -/
theorem lfRun_trace_nil (choice : ℕ → String × LFType) (n : ℕ) :
    (lfTrace n).foldl (lfStep choice) [] = [] := by
  induction n with
  | zero => rfl
  | succ n ih =>
      rw [lfTrace, List.foldl_append, ih]
      simp [lfStep, lfAppend, lfRemoveId, lfMessageId]

/-- After processing any prefix of the timer-event trace, the message list
holds at most one interval message. -/
theorem lfRunPrefix_length_le_one (choice : ℕ → String × LFType) :
    ∀ n j, (lfRunPrefix choice n j).length ≤ 1 := by
  intro n
  induction n with
  | zero =>
      intro j
      simp [lfRunPrefix, lfTrace]
  | succ n ih =>
      intro j
      unfold lfRunPrefix
      rw [lfTrace, List.take_append_eq_append_take, List.foldl_append, lfTrace_length]
      rcases le_or_lt j (2 * n) with hj | hj
      · have h0 : j - 2 * n = 0 := by omega
        rw [h0]
        simpa [lfRunPrefix] using ih j
      · have hfull : (lfTrace n).take j = lfTrace n :=
          List.take_of_length_le (by rw [lfTrace_length]; omega)
        rw [hfull, lfRun_trace_nil]
        rcases lt_or_le j (2 * n + 2) with hj2 | hj2
        · have h1 : j - 2 * n = 1 := by omega
          rw [h1]
          simp [lfStep, lfAppend]
        · have h2 : ([LFEvent.tick n, LFEvent.expire n].take (j - 2 * n)) =
              [LFEvent.tick n, LFEvent.expire n] :=
            List.take_of_length_le (by simp; omega)
          rw [h2]
          simp [lfStep, lfAppend, lfRemoveId, lfMessageId]

/-- C8 amended: `LiveFeedback` maintains no cap and never evicts on insert;
messages leave the list only through their individual 3000 ms expiry
timeouts.  The list length nevertheless never exceeds 1, because the
4000 ms insertion interval exceeds the 3000 ms lifetime: the timer events
are delivered in strictly increasing time order (first conjunct), and
processing any prefix of that event sequence leaves at most one message
(second conjunct). -/
theorem lf_messages_bounded (choice : ℕ → String × LFType) :
    (∀ n, ((lfTrace n).map lfEventTime).Pairwise (· < ·)) ∧
    (∀ n j, (lfRunPrefix choice n j).length ≤ 1) :=
  ⟨fun n => lfTrace_times_sorted n, fun n j => lfRunPrefix_length_le_one choice n j⟩

/-- C8 counterexample: the insertion step never evicts.  Applied to a list
already holding three messages (more than any small cap), a tick appends a
fourth and the oldest message (id 1) is still present — there is no
"evict the oldest non-pinned message" behaviour anywhere in `LiveFeedback`;
removal happens only via the expiry timeout. -/
theorem no_eviction_on_ingest :
    lfStep lfChoiceDemo
        [⟨1, "a", LFType.tip⟩, ⟨2, "b", LFType.tip⟩, ⟨3, "c", LFType.tip⟩] (.tick 3) =
      [⟨1, "a", LFType.tip⟩, ⟨2, "b", LFType.tip⟩, ⟨3, "c", LFType.tip⟩,
       ⟨4, "Sync with the beat", LFType.warning⟩] ∧
    (lfStep lfChoiceDemo
        [⟨1, "a", LFType.tip⟩, ⟨2, "b", LFType.tip⟩, ⟨3, "c", LFType.tip⟩]
        (.tick 3)).length = 4 ∧
    (⟨1, "a", LFType.tip⟩ : LFMsg) ∈ lfStep lfChoiceDemo
        [⟨1, "a", LFType.tip⟩, ⟨2, "b", LFType.tip⟩, ⟨3, "c", LFType.tip⟩] (.tick 3) := by
  refine ⟨rfl, rfl, ?_⟩
  simp [lfStep, lfAppend, lfChoiceDemo, lfMessageId]

/-- `response.ok` holds exactly for success statuses 200-299. -/
theorem responseOk_iff {α : Type} (r : HTTPResponse α) :
    responseOk r = true ↔ (200 ≤ r.status ∧ r.status ≤ 299) := by
  simp [responseOk]

/-- C9: `DanceAPI.request` — and with it every endpoint method, each of
which delegates to it — rejects with a thrown error exactly when the HTTP
status is outside the success range 200-299, and otherwise returns the
parsed body; a non-success status is never silently swallowed. -/
theorem request_error_iff_non_success :
    (∀ (α : Type) (r : HTTPResponse α),
      ((∃ e, danceRequest r = .error e) ↔ ¬(200 ≤ r.status ∧ r.status ≤ 299)) ∧
      ((200 ≤ r.status ∧ r.status ≤ 299) → danceRequest r = .ok r.body)) ∧
    (∀ r, processSnapshotCall r = danceRequest r) ∧
    (∀ r, startSessionCall r = danceRequest r) ∧
    (∀ r, endSessionCall r = danceRequest r) ∧
    (∀ r, loadReferenceVideoCall r = danceRequest r) ∧
    (∀ r, testConnectionCall r = danceRequest r) := by
  refine ⟨?_, fun r => rfl, fun r => rfl, fun r => rfl, fun r => rfl, fun r => rfl⟩
  intro α r
  constructor
  · constructor
    · rintro ⟨e, he⟩ hok
      rw [danceRequest, if_pos ((responseOk_iff r).mpr hok)] at he
      exact Except.noConfusion he
    · intro hnot
      refine ⟨"HTTP error! status: " ++ toString r.status, ?_⟩
      rw [danceRequest, if_neg ?_]
      intro hok
      exact hnot ((responseOk_iff r).mp hok)
  · intro hok
    rw [danceRequest, if_pos ((responseOk_iff r).mpr hok)]

/-- Witness for C9: a 200 response yields the body, a 500 response yields a
thrown error. -/
theorem request_error_iff_non_success_witness :
    (200 ≤ 200 ∧ 200 ≤ 299) ∧
    danceRequest { status := 200, body := ({ session_id := "s1", message := "ok" } :
      StartSessionResponse) } = .ok { session_id := "s1", message := "ok" } ∧
    ¬(200 ≤ 500 ∧ (500:ℕ) ≤ 299) ∧
    (∃ e, danceRequest { status := 500, body := ({ session_id := "s1", message := "ok" } :
      StartSessionResponse) } = .error e) := by
  refine ⟨by norm_num, ?_, by norm_num, ?_⟩
  · exact (request_error_iff_non_success.1 StartSessionResponse
      { status := 200, body := { session_id := "s1", message := "ok" } }).2 (by norm_num)
  · exact ((request_error_iff_non_success.1 StartSessionResponse
      { status := 500, body := { session_id := "s1", message := "ok" } }).1).mpr (by norm_num)

/-- C10: session lifecycle state is updated atomically with the API call
outcome.  When `startDanceSession` succeeds, `sessionId` is the returned
`session_id` and `isSessionActive` is true; when `endDanceSession`
succeeds, `sessionId` is null and `isSessionActive` is false; when either
call fails, both fields are unchanged and the error is re-thrown. -/
theorem session_lifecycle_atomic (s : DanceSessionState)
    (r : Except String StartSessionResponse) :
    (∀ resp, r = .ok resp →
      startDanceSession s r =
        ({ sessionId := some resp.session_id, isSessionActive := true }, r) ∧
      endDanceSession s r =
        ({ sessionId := none, isSessionActive := false }, r)) ∧
    (∀ e, r = .error e →
      startDanceSession s r = (s, r) ∧ endDanceSession s r = (s, r)) := by
  constructor
  · rintro resp rfl
    exact ⟨rfl, rfl⟩
  · rintro e rfl
    exact ⟨rfl, rfl⟩

/-- Witness for C10 at a concrete state with a success and a failure
outcome. -/
theorem session_lifecycle_atomic_witness :
    (Except.ok { session_id := "s42", message := "ok" } =
      (.ok { session_id := "s42", message := "ok" } :
        Except String StartSessionResponse)) ∧
    startDanceSession { sessionId := none, isSessionActive := false }
        (.ok { session_id := "s42", message := "ok" }) =
      ({ sessionId := some ("s42"), isSessionActive := true },
        .ok { session_id := "s42", message := "ok" }) ∧
    startDanceSession { sessionId := some ("s42"), isSessionActive := true }
        (.error ("HTTP error! status: 500")) =
      ({ sessionId := some ("s42"), isSessionActive := true },
        .error ("HTTP error! status: 500")) := by
  refine ⟨rfl, ?_, ?_⟩
  · exact ((session_lifecycle_atomic { sessionId := none, isSessionActive := false }
      (.ok { session_id := "s42", message := "ok" })).1
      { session_id := "s42", message := "ok" } rfl).1
  · exact ((session_lifecycle_atomic { sessionId := some ("s42"), isSessionActive := true }
      (.error ("HTTP error! status: 500"))).2 ("HTTP error! status: 500") rfl).1
